import Mathlib

/-!
Verification of the wynn-resorts registration flow.

Shallow embedding, translated from the TypeScript source:
* `OTPInput.tsx` — the 4-cell OTP digit widget (paste distribution, guard data).
* `PhoneNumberInput` (`formatPhoneNumber`, `handleCountryChange`).
* `useRegistrationForm.ts` (`onSubmit`).
* `useOTPConfirm.ts` (`handleResendCode`, `handleSubmit`, `isCodeComplete`).
* `lib/api/otp.ts` — the four API wrappers' message selection.
* `lib/validations/registration.ts` — the zod registration schema as consumed
  through the resolver (first failing rule per field).

Browser storage is modelled as an association list from string keys to string
values; network requests as an `Except`-valued outcome handed to the handler;
toast notifications and logging are outside the model.
-/

set_option autoImplicit false

namespace Wynn

/-! ## OTP digit input (`OTPInput.tsx`) -/

/-- From `handlePaste` in `OTPInput.tsx`: the clipboard text is truncated to 4
characters (`slice(0, 4)`), a fresh `["","","",""]` array is filled by copying
`pastedData[i]` into cell `i` whenever that character is a decimal digit, and
the focus target is `min(pastedData.length, 3)`.  Returns the new 4-cell array
together with the focused index. -/
def handlePaste (clipboard : String) : List String × Nat :=
  let pastedData := clipboard.data.take 4
  let newOtp := (List.range 4).map fun i =>
    match pastedData.get? i with
    | some c => if c.isDigit then String.mk [c] else ""
    | none => ""
  (newOtp, min pastedData.length 3)

/-- The array the spec (and the component's own test) expects for a pasted
clipboard text: keep only decimal digits, truncate to 4, distribute
left-to-right into a fresh 4-cell array.  Modelled from the spec's words for
comparison with `handlePaste`. -/
def specPasteArray (clipboard : String) : List String :=
  let digits := (clipboard.data.filter Char.isDigit).take 4
  (List.range 4).map fun i =>
    match digits.get? i with
    | some c => String.mk [c]
    | none => ""

/-- From `isCodeComplete` in `useOTPConfirm.ts`: `otp.every(digit => digit !== "")`. -/
def isCodeComplete (otp : List String) : Bool :=
  otp.all fun digit => digit ≠ ""

/-! ## Phone formatter (`PhoneNumberInput`, `formatPhoneNumber`) -/

/-- JavaScript `s.slice(a, b)` on a list of characters (`a ≤ b` in every use
in the source). -/
def jsSlice (l : List Char) (a b : Nat) : List Char :=
  (l.take b).drop a

/-- The grouping step of `formatPhoneNumber`, acting on the digit characters
that survive `value.replace(/\D/g, "")`.  Each branch mirrors one template
literal of the source. -/
def formatDigits (digits : List Char) (dialCode : String) : List Char :=
  if dialCode = "+1" then
    -- US/Canada format: (XXX) XXX-XXXX
    if digits.length ≤ 3 then digits
    else if digits.length ≤ 6 then
      '(' :: digits.take 3 ++ ')' :: ' ' :: digits.drop 3
    else
      '(' :: digits.take 3 ++ ')' :: ' ' :: jsSlice digits 3 6 ++ '-' :: jsSlice digits 6 10
  else if dialCode = "+44" then
    -- UK format: XXXX XXX XXXX
    if digits.length ≤ 4 then digits
    else if digits.length ≤ 7 then
      digits.take 4 ++ ' ' :: digits.drop 4
    else
      digits.take 4 ++ ' ' :: jsSlice digits 4 7 ++ ' ' :: jsSlice digits 7 11
  else if dialCode = "+971" then
    -- UAE format: (XXX) - XXXX
    if digits.length ≤ 3 then digits
    else if digits.length ≤ 7 then
      '(' :: digits.take 3 ++ ')' :: ' ' :: '-' :: ' ' :: digits.drop 3
    else
      '(' :: digits.take 3 ++ ')' :: ' ' :: '-' :: ' ' :: jsSlice digits 3 7
  else
    -- Generic format: XXX XXX XXXX
    if digits.length ≤ 3 then digits
    else if digits.length ≤ 6 then
      digits.take 3 ++ ' ' :: digits.drop 3
    else
      digits.take 3 ++ ' ' :: jsSlice digits 3 6 ++ ' ' :: jsSlice digits 6 10

/-- Embeds `formatPhoneNumber(value, countryCode)` from `PhoneNumberInput`: strip all
non-digits (`value.replace(/\D/g, "")`), then apply the dial-code-specific
grouping. -/
def formatPhoneNumber (value dialCode : String) : String :=
  String.mk (formatDigits (value.data.filter Char.isDigit) dialCode)

/-- Embeds `getPlaceholder(countryCode)` from `PhoneNumberInput`, for the case where
no explicit `placeholder` prop is supplied. -/
def getPlaceholder (countryCode : String) : String :=
  if countryCode = "+1" then "(XXX) XXX-XXXX"
  else if countryCode = "+44" then "XXXX XXX XXXX"
  else if countryCode = "+971" then "( ___ ) - ____"
  else "XXX XXX XXXX"

/-! ## Browser key-value storage

`localStorage` modelled as an association list; `setItem` prepends after
removing the old binding, `removeItem` filters, `getItem` is the first
binding. -/

/-- The browser's string-keyed key-value store. -/
structure Store where
  pairs : List (String × String)
deriving DecidableEq

/-- Embeds `localStorage.getItem(k)`: `some v` when the key is bound, `none` otherwise. -/
def Store.getItem (st : Store) (k : String) : Option String :=
  (st.pairs.find? fun p => p.1 = k).map Prod.snd

/-- Embeds `localStorage.setItem(k, v)`. -/
def Store.setItem (st : Store) (k v : String) : Store :=
  ⟨(k, v) :: st.pairs.filter fun p => p.1 ≠ k⟩

/-- Embeds `localStorage.removeItem(k)`. -/
def Store.removeItem (st : Store) (k : String) : Store :=
  ⟨st.pairs.filter fun p => p.1 ≠ k⟩

/-! ## Registration step controller (`useRegistrationForm.ts`, `onSubmit`)

`onSubmit` runs after validation has passed.  Its body is a `try` block:
`localStorage.setItem("wynn_registration_data", JSON.stringify(data))`
followed by `router.push("/otp-send")`; any throw is caught and logged, so a
failed write leaves the page unchanged.  `writeThrows` models whether the
storage write throws (e.g. quota exceeded), in which case nothing is written. -/

/-- Result of the registration `onSubmit`: the storage and the current page. -/
structure SubmitOutcome where
  store : Store
  page : String
deriving DecidableEq

/-- Embeds `onSubmit` from `useRegistrationForm.ts`, with `data` the serialized
registration record. -/
def onSubmit (writeThrows : Bool) (st : Store) (page : String) (data : String) :
    SubmitOutcome :=
  if writeThrows then
    -- setItem throws; the catch block only logs, so no navigation happens
    ⟨st, page⟩
  else
    ⟨st.setItem "wynn_registration_data" data, "/otp-send"⟩

/-! ## OTP confirm controller (`useOTPConfirm.ts`) -/

/-- Embeds `handleResendCode`: awaits `resendOTP`; on success (`ok`) the digit buffer
is cleared, on failure (`error`) the catch block only logs and toasts, leaving
the buffer as it was. -/
def handleResendCode (otp : List String) (outcome : Except Unit String) :
    List String :=
  match outcome with
  | .ok _ => ["", "", "", ""]
  | .error _ => otp

/-- Result of the OTP confirm `handleSubmit`: the digit buffer, the storage,
the page, and whether the verify request was issued. -/
structure ConfirmOutcome where
  otp : List String
  store : Store
  page : String
  requested : Bool
deriving DecidableEq

/-- Embeds `handleSubmit` from `useOTPConfirm.ts`: guard `otp.join("").length !== 4`
returns early; otherwise the verify request is issued, and on success both
`"otp_method"` and `"wynn_registration_data"` are removed and the buffer is
cleared (the router is never invoked), while on failure the buffer is cleared
to allow retry. -/
def handleSubmit (otp : List String) (st : Store) (page : String)
    (outcome : Except Unit String) : ConfirmOutcome :=
  let code := String.join otp
  if code.length ≠ 4 then
    ⟨otp, st, page, false⟩
  else
    match outcome with
    | .ok _ =>
      ⟨["", "", "", ""],
        (st.removeItem "otp_method").removeItem "wynn_registration_data",
        page, true⟩
    | .error _ => ⟨["", "", "", ""], st, page, true⟩

/-! ## Phone number input (`handleCountryChange`) -/

/-- A record of the static country directory (`lib/countries`). -/
structure Country where
  name : String
  code : String
  dialCode : String
  flag : String
deriving DecidableEq

/-- Internal state of `PhoneNumberInput`: the formatted digits entered so far
and the selected country. -/
structure PhoneInputState where
  phoneNumber : String
  selectedCountry : Country
deriving DecidableEq

/-- Callbacks the phone input fires upward. -/
inductive PhoneEvent where
  | countryChange (c : Country)
  | change (value : String)
deriving DecidableEq

/-- Embeds `handleCountryChange` from `PhoneNumberInput`: set the selected country,
notify `onCountryChange`, clear the phone number, notify `onChange("")`.
Returns the new internal state and the fired callbacks in order. -/
def handleCountryChange (_st : PhoneInputState) (country : Country) :
    PhoneInputState × List PhoneEvent :=
  (⟨"", country⟩, [.countryChange country, .change ""])

/-! ## API wrappers (`lib/api/otp.ts`)

Each wrapper ends with `return result.msg || fallback`.  The `msg` field of
the parsed 2xx response body is an optional string; JavaScript `||` falls
through on every falsy value, and among strings only `""` is falsy. -/

/-- JavaScript `a || b` where `a` is an optional string: `b` when `a` is
absent (`undefined`) or the empty string. -/
def jsOrString (v : Option String) (fallback : String) : String :=
  match v with
  | none => fallback
  | some s => if s = "" then fallback else s

/-- Message returned by `sendOTPEmail` from a 2xx response whose body has the
given `msg` field. -/
def sendOTPEmailMessage (msg : Option String) : String :=
  jsOrString msg "OTP sent successfully to your email"

/-- Message returned by `sendOTPPhone`. -/
def sendOTPPhoneMessage (msg : Option String) : String :=
  jsOrString msg "OTP sent successfully to your phone"

/-- Message returned by `verifyOTP`. -/
def verifyOTPMessage (msg : Option String) : String :=
  jsOrString msg "Registration completed successfully"

/-- Message returned by `resendOTP` for the given method (the fallback is the
template literal `OTP resent successfully to your ${method}`). -/
def resendOTPMessage (method : String) (msg : Option String) : String :=
  jsOrString msg ("OTP resent successfully to your " ++ method)

/-! ## Registration validation schema (`lib/validations/registration.ts`)

The zod schema validates every field independently; the resolver surfaces the
first failing rule's message per field.  Each chain below lists the rules in
source order and returns the first failure.  The shape test behind
`z.string().email(...)` is kept abstract as a predicate parameter
`emailShape`, since no claim depends on its exact regex. -/

/-- The record the registration form submits. -/
structure RegistrationFormData where
  firstName : String
  lastName : String
  gender : String
  country : String
  email : String
  phone : String
  acceptTerms : Bool
deriving DecidableEq

/-- First failing rule per field of `registrationSchema`, as the resolver
reports it. -/
structure FieldErrors where
  firstName : Option String
  lastName : Option String
  gender : Option String
  country : Option String
  email : Option String
  phone : Option String
  acceptTerms : Option String
deriving DecidableEq

/-- Embeds `registrationSchema` evaluated on a record: per field, the message of the
first failing rule, or `none` when the field passes. -/
def validateRegistration (emailShape : String → Bool)
    (data : RegistrationFormData) : FieldErrors where
  firstName :=
    if data.firstName.length < 1 then some "First name is required"
    else if data.firstName.length < 2 then
      some "First name must be at least 2 characters"
    else none
  lastName :=
    if data.lastName.length < 1 then some "Last name is required"
    else if data.lastName.length < 2 then
      some "Last name must be at least 2 characters"
    else none
  gender :=
    if data.gender = "male" ∨ data.gender = "female" ∨ data.gender = "other"
    then none else some "Please select a gender"
  country :=
    if data.country.length < 1 then some "Please select your residence country"
    else none
  email :=
    if data.email.length < 1 then some "Email is required"
    else if emailShape data.email = false then
      some "Please enter a valid email address"
    else none
  phone :=
    if data.phone.length < 1 then some "Phone number is required"
    else if data.phone.length < 10 then
      some "Phone number must be at least 10 digits"
    else none
  acceptTerms :=
    if data.acceptTerms = true then none
    else some "You must accept the terms and conditions to continue"

/-- The all-fields-empty submission. -/
def emptyRegistration : RegistrationFormData :=
  ⟨"", "", "", "", "", "", false⟩

/-! ## Helper lemmas -/

theorem String.length_eq_zero_iff (s : String) : s.length = 0 ↔ s = "" := by
  constructor
  · intro h
    cases s with
    | mk data =>
      cases data with
      | nil => rfl
      | cons a t => simp [String.length] at h
  · intro h
    subst h
    rfl

theorem Store.getItem_setItem_self (st : Store) (k v : String) :
    (st.setItem k v).getItem k = some v := by
  simp [Store.getItem, Store.setItem, List.find?_cons_of_pos]

theorem Store.getItem_removeItem_self (st : Store) (k : String) :
    (st.removeItem k).getItem k = none := by
  have hnone :
      (st.pairs.filter fun p => p.1 ≠ k).find? (fun p => p.1 = k) = none := by
    rw [List.find?_eq_none]
    intro p hp
    simp only [List.mem_filter, decide_not] at hp
    simpa using hp.2
  simp only [Store.getItem, Store.removeItem, hnone, Option.map_none']

theorem Store.getItem_removeItem_of_ne (st : Store) (k k' : String) (h : k' ≠ k) :
    (st.removeItem k).getItem k' = st.getItem k' := by
  obtain ⟨l⟩ := st
  simp only [Store.getItem, Store.removeItem]
  induction l with
  | nil => rfl
  | cons p t ih =>
    by_cases hk : p.1 = k
    · rw [List.filter_cons_of_neg (by simpa using hk)]
      rw [ih]
      have hne : ¬ (p.1 = k') := by
        rw [hk]
        exact fun hkk => h hkk.symm
      rw [List.find?_cons_of_neg t (by simpa using hne)]
    · rw [List.filter_cons_of_pos (by simpa using hk)]
      by_cases hk' : p.1 = k'
      · rw [List.find?_cons_of_pos _ (by simpa using hk'),
          List.find?_cons_of_pos t (by simpa using hk')]
      · rw [List.find?_cons_of_neg _ (by simpa using hk'),
          List.find?_cons_of_neg t (by simpa using hk')]
        exact ih

theorem filter_isDigit_of_all (l : List Char) (h : ∀ c ∈ l, Char.isDigit c) :
    l.filter Char.isDigit = l :=
  List.filter_eq_self.mpr h

theorem take_append_jsSlice (l : List Char) (a b : Nat) (hab : a ≤ b) :
    l.take a ++ jsSlice l a b = l.take b := by
  unfold jsSlice
  have h1 : l.take a = (l.take b).take a := by
    rw [List.take_take]
    congr 1
    omega
  rw [h1]
  exact List.take_append_drop a (l.take b)

theorem take_jsSlice_jsSlice (l : List Char) (a b c : Nat) (h1 : a ≤ b)
    (h2 : b ≤ c) :
    l.take a ++ (jsSlice l a b ++ jsSlice l b c) = l.take c := by
  rw [← List.append_assoc, take_append_jsSlice l a b h1,
    take_append_jsSlice l b c h2]

theorem jsSlice_take (l : List Char) (a b n : Nat) (hbn : b ≤ n) :
    jsSlice (l.take n) a b = jsSlice l a b := by
  unfold jsSlice
  rw [List.take_take]
  congr 2
  omega

theorem take_take_of_le (l : List Char) (a n : Nat) (han : a ≤ n) :
    (l.take n).take a = l.take a := by
  rw [List.take_take]
  congr 1
  omega

/-- Post-grouping digit recovery: filtering the digits back out of a
formatted number yields the digit sequence the grouping consumed (the whole
input below the template's capacity, a truncated prefix above it). -/
theorem filter_formatDigits (d : List Char) (dial : String)
    (hd : ∀ c ∈ d, Char.isDigit c) :
    (formatDigits d dial).filter Char.isDigit =
      if dial = "+1" then (if d.length ≤ 6 then d else d.take 10)
      else if dial = "+44" then (if d.length ≤ 7 then d else d.take 11)
      else if dial = "+971" then (if d.length ≤ 7 then d else d.take 7)
      else (if d.length ≤ 6 then d else d.take 10) := by
  have ht : ∀ n, (d.take n).filter Char.isDigit = d.take n := fun n =>
    List.filter_eq_self.mpr fun c hc => hd c (List.take_subset n d hc)
  have hdr : ∀ n, (d.drop n).filter Char.isDigit = d.drop n := fun n =>
    List.filter_eq_self.mpr fun c hc => hd c (List.drop_subset n d hc)
  have hs : ∀ a b, (jsSlice d a b).filter Char.isDigit = jsSlice d a b :=
    fun a b => List.filter_eq_self.mpr fun c hc =>
      hd c (List.take_subset b d (List.drop_subset a (d.take b) hc))
  have hlp : Char.isDigit '(' = false := by decide
  have hrp : Char.isDigit ')' = false := by decide
  have hsp : Char.isDigit ' ' = false := by decide
  have hda : Char.isDigit '-' = false := by decide
  unfold formatDigits
  split_ifs with h1 h3 h6 h44 h4 h7 h971 h3' h7' h3'' h6'' <;>
    simp only [List.filter_append, List.filter_cons, hlp, hrp, hsp, hda,
      Bool.false_eq_true, if_false, ht, hdr, hs, List.filter_nil,
      filter_isDigit_of_all d hd] <;>
    first
      | rfl
      | (exfalso; omega)
      | rw [List.take_append_drop]
      | rw [List.append_assoc, take_jsSlice_jsSlice d 3 6 10 (by omega)
          (by omega)]
      | rw [List.append_assoc, take_jsSlice_jsSlice d 4 7 11 (by omega)
          (by omega)]
      | rw [take_append_jsSlice d 3 7 (by omega)]

theorem formatDigits_plus1 (l : List Char) :
    formatDigits l "+1" =
      if l.length ≤ 3 then l
      else if l.length ≤ 6 then '(' :: l.take 3 ++ ')' :: ' ' :: l.drop 3
      else '(' :: l.take 3 ++ ')' :: ' ' :: jsSlice l 3 6 ++
        '-' :: jsSlice l 6 10 := by
  unfold formatDigits
  rw [if_pos rfl]

theorem formatDigits_plus44 (l : List Char) :
    formatDigits l "+44" =
      if l.length ≤ 4 then l
      else if l.length ≤ 7 then l.take 4 ++ ' ' :: l.drop 4
      else l.take 4 ++ ' ' :: jsSlice l 4 7 ++ ' ' :: jsSlice l 7 11 := by
  unfold formatDigits
  rw [if_neg (by decide), if_pos rfl]

theorem formatDigits_plus971 (l : List Char) :
    formatDigits l "+971" =
      if l.length ≤ 3 then l
      else if l.length ≤ 7 then
        '(' :: l.take 3 ++ ')' :: ' ' :: '-' :: ' ' :: l.drop 3
      else '(' :: l.take 3 ++ ')' :: ' ' :: '-' :: ' ' :: jsSlice l 3 7 := by
  unfold formatDigits
  rw [if_neg (by decide), if_neg (by decide), if_pos rfl]

theorem formatDigits_generic (l : List Char) (dial : String)
    (h1 : dial ≠ "+1") (h2 : dial ≠ "+44") (h3 : dial ≠ "+971") :
    formatDigits l dial =
      if l.length ≤ 3 then l
      else if l.length ≤ 6 then l.take 3 ++ ' ' :: l.drop 3
      else l.take 3 ++ ' ' :: jsSlice l 3 6 ++ ' ' :: jsSlice l 6 10 := by
  unfold formatDigits
  rw [if_neg h1, if_neg h2, if_neg h3]

/-- Regrouping the digits recovered from a formatted number reproduces the
formatted number. -/
theorem formatDigits_idem (d : List Char) (dial : String)
    (hd : ∀ c ∈ d, Char.isDigit c) :
    formatDigits ((formatDigits d dial).filter Char.isDigit) dial =
      formatDigits d dial := by
  rw [filter_formatDigits d dial hd]
  by_cases h1 : dial = "+1"
  · subst h1
    rw [if_pos rfl]
    by_cases h6 : d.length ≤ 6
    · rw [if_pos h6]
    · rw [if_neg h6]
      have hlen : (d.take 10).length = 10 ⊓ d.length := List.length_take 10 d
      rw [formatDigits_plus1, formatDigits_plus1]
      rw [if_neg (show ¬ (d.take 10).length ≤ 3 by rw [hlen]; omega),
        if_neg (show ¬ (d.take 10).length ≤ 6 by rw [hlen]; omega),
        if_neg (show ¬ d.length ≤ 3 by omega), if_neg h6]
      rw [take_take_of_le d 3 10 (by omega), jsSlice_take d 3 6 10 (by omega),
        jsSlice_take d 6 10 10 (by omega)]
  · rw [if_neg h1]
    by_cases h2 : dial = "+44"
    · subst h2
      rw [if_pos rfl]
      by_cases h7 : d.length ≤ 7
      · rw [if_pos h7]
      · rw [if_neg h7]
        have hlen : (d.take 11).length = 11 ⊓ d.length :=
          List.length_take 11 d
        rw [formatDigits_plus44, formatDigits_plus44]
        rw [if_neg (show ¬ (d.take 11).length ≤ 4 by rw [hlen]; omega),
          if_neg (show ¬ (d.take 11).length ≤ 7 by rw [hlen]; omega),
          if_neg (show ¬ d.length ≤ 4 by omega), if_neg h7]
        rw [take_take_of_le d 4 11 (by omega),
          jsSlice_take d 4 7 11 (by omega), jsSlice_take d 7 11 11 (by omega)]
    · rw [if_neg h2]
      by_cases h3 : dial = "+971"
      · subst h3
        rw [if_pos rfl]
        by_cases h7 : d.length ≤ 7
        · rw [if_pos h7]
        · rw [if_neg h7]
          have hlen : (d.take 7).length = 7 := by
            rw [List.length_take]
            omega
          rw [formatDigits_plus971, formatDigits_plus971, hlen]
          rw [if_neg (show ¬ (7 : Nat) ≤ 3 by omega),
            if_pos (show (7 : Nat) ≤ 7 by omega),
            if_neg (show ¬ d.length ≤ 3 by omega), if_neg h7]
          rw [take_take_of_le d 3 7 (by omega)]
          rfl
      · rw [if_neg h3]
        by_cases h6 : d.length ≤ 6
        · rw [if_pos h6]
        · rw [if_neg h6]
          have hlen : (d.take 10).length = 10 ⊓ d.length :=
            List.length_take 10 d
          rw [formatDigits_generic _ _ h1 h2 h3,
            formatDigits_generic _ _ h1 h2 h3]
          rw [if_neg (show ¬ (d.take 10).length ≤ 3 by rw [hlen]; omega),
            if_neg (show ¬ (d.take 10).length ≤ 6 by rw [hlen]; omega),
            if_neg (show ¬ d.length ≤ 3 by omega), if_neg h6]
          rw [take_take_of_le d 3 10 (by omega),
            jsSlice_take d 3 6 10 (by omega), jsSlice_take d 6 10 10 (by omega)]

/-! ## Claims -/

/-- C1: the claim says pasting into cell 0 filters the clipboard down to its
decimal digits, truncates to 4, and distributes them left-to-right, so that
pasting "1a2b3c4d" yields ["1","2","3","4"].  The code instead truncates the
raw clipboard to its first 4 characters and keeps digits at their original
positions, so pasting "1a2b3c4d" yields ["1","","2",""] — contradicting the
component's own test, which expects ["1","2","3","4"].  This theorem
evaluates the code at the failing input and records the divergence from the
spec-modelled behaviour. -/
theorem handlePaste_code_bug :
    handlePaste "1a2b3c4d" = (["1", "", "2", ""], 3) ∧
    specPasteArray "1a2b3c4d" = ["1", "2", "3", "4"] ∧
    (handlePaste "1a2b3c4d").1 ≠ specPasteArray "1a2b3c4d" := by
  decide

/-- C3 counterexample: the claim names the persistence key
`"registration_data"`.  Starting from an empty store, a successful submit
navigates to the OTP step, yet leaves `"registration_data"` unbound — the
record is stored under `"wynn_registration_data"` instead. -/
theorem onSubmit_key_counterexample :
    (onSubmit false ⟨[]⟩ "/" "payload").page = "/otp-send" ∧
    (onSubmit false ⟨[]⟩ "/" "payload").store.getItem "registration_data" = none ∧
    (onSubmit false ⟨[]⟩ "/" "payload").store.getItem "wynn_registration_data" =
      some "payload" := by
  decide

/-- C3 (amended): on a validated submit, the serialized record is written
under the key `"wynn_registration_data"` and the controller navigates to
`"/otp-send"`; when the persistence write throws, the page is unchanged (no
navigation) and the store is untouched. -/
theorem onSubmit_persist_then_navigate (st : Store) (page data : String) :
    ((onSubmit false st page data).store.getItem "wynn_registration_data" =
        some data ∧
      (onSubmit false st page data).page = "/otp-send") ∧
    onSubmit true st page data = ⟨st, page⟩ := by
  refine ⟨⟨?_, rfl⟩, rfl⟩
  simp only [onSubmit, Bool.false_eq_true, if_false]
  exact Store.getItem_setItem_self st "wynn_registration_data" data

/-- C4: error handling is asymmetric on the digit buffer — a failing resend
leaves any (possibly partial) buffer unchanged, while a failing verify (which
fires only once the joined code has length 4) clears the buffer to
`["","","",""]`. -/
theorem confirm_error_asymmetry :
    (∀ otp : List String, handleResendCode otp (.error ()) = otp) ∧
    (∀ (otp : List String) (st : Store) (page : String),
      (String.join otp).length = 4 →
      (handleSubmit otp st page (.error ())).otp = ["", "", "", ""]) := by
  refine ⟨fun otp => rfl, fun otp st page h => ?_⟩
  simp [handleSubmit, h]

/-- C4 witness: the asymmetry at the partial buffer `["1","2","",""]` and the
complete buffer `["1","2","3","4"]`. -/
theorem confirm_error_asymmetry_witness :
    handleResendCode ["1", "2", "", ""] (.error ()) = ["1", "2", "", ""] ∧
    ((String.join ["1", "2", "3", "4"]).length = 4 ∧
      (handleSubmit ["1", "2", "3", "4"] ⟨[]⟩ "/otp-confirm" (.error ())).otp =
        ["", "", "", ""]) :=
  ⟨confirm_error_asymmetry.1 ["1", "2", "", ""],
    by decide,
    confirm_error_asymmetry.2 ["1", "2", "3", "4"] ⟨[]⟩ "/otp-confirm" (by decide)⟩

/-- C5 counterexample: the claim says a successful verify deletes the keys
`"otp_method"` and `"registration_data"`.  With a store binding
`"registration_data"`, a successful submit (request issued, outcome ok)
leaves that key bound: the code removes `"wynn_registration_data"` instead. -/
theorem confirm_success_key_counterexample :
    (handleSubmit ["1", "2", "3", "4"]
        ⟨[("otp_method", "email"), ("registration_data", "x")]⟩
        "/otp-confirm" (.ok "m")).requested = true ∧
    (handleSubmit ["1", "2", "3", "4"]
        ⟨[("otp_method", "email"), ("registration_data", "x")]⟩
        "/otp-confirm" (.ok "m")).store.getItem "registration_data" =
      some "x" := by
  decide

/-- C5 (amended): when the verify request resolves, both persisted keys
`"otp_method"` and `"wynn_registration_data"` are deleted, the digit buffer
is cleared to `["","","",""]`, and the page is unchanged (no navigation). -/
theorem confirm_success_cleanup (otp : List String) (st : Store)
    (page m : String) (h : (String.join otp).length = 4) :
    (handleSubmit otp st page (.ok m)).otp = ["", "", "", ""] ∧
    (handleSubmit otp st page (.ok m)).store.getItem "otp_method" = none ∧
    (handleSubmit otp st page (.ok m)).store.getItem "wynn_registration_data" =
      none ∧
    (handleSubmit otp st page (.ok m)).page = page := by
  simp only [handleSubmit, h, ne_eq, not_true_eq_false, if_false, true_and,
    and_true]
  constructor
  · rw [Store.getItem_removeItem_of_ne _ _ _ (by decide)]
    exact Store.getItem_removeItem_self st "otp_method"
  · exact Store.getItem_removeItem_self (st.removeItem "otp_method")
      "wynn_registration_data"

/-- C5 witness: the cleanup at a concrete complete buffer and populated
store. -/
theorem confirm_success_cleanup_witness :
    (String.join ["1", "2", "3", "4"]).length = 4 ∧
    ((handleSubmit ["1", "2", "3", "4"]
        ⟨[("otp_method", "email"), ("wynn_registration_data", "y")]⟩
        "/otp-confirm" (.ok "m")).otp = ["", "", "", ""] ∧
      (handleSubmit ["1", "2", "3", "4"]
        ⟨[("otp_method", "email"), ("wynn_registration_data", "y")]⟩
        "/otp-confirm" (.ok "m")).store.getItem "otp_method" = none ∧
      (handleSubmit ["1", "2", "3", "4"]
        ⟨[("otp_method", "email"), ("wynn_registration_data", "y")]⟩
        "/otp-confirm" (.ok "m")).store.getItem "wynn_registration_data" =
        none ∧
      (handleSubmit ["1", "2", "3", "4"]
        ⟨[("otp_method", "email"), ("wynn_registration_data", "y")]⟩
        "/otp-confirm" (.ok "m")).page = "/otp-confirm") :=
  ⟨by decide,
    confirm_success_cleanup ["1", "2", "3", "4"]
      ⟨[("otp_method", "email"), ("wynn_registration_data", "y")]⟩
      "/otp-confirm" "m" (by decide)⟩

/-- C6: validating the all-empty registration record produces a field-keyed
error for every one of the seven fields simultaneously, each carrying the
message of its first failing rule (e.g. "First name is required", not the
minimum-length message), for any email-shape predicate. -/
theorem validateRegistration_empty_all_fields (emailShape : String → Bool) :
    validateRegistration emailShape emptyRegistration =
      ⟨some "First name is required",
        some "Last name is required",
        some "Please select a gender",
        some "Please select your residence country",
        some "Email is required",
        some "Phone number is required",
        some "You must accept the terms and conditions to continue"⟩ := by
  rfl

/-- C7: changing the selected country clears the phone value for every prior
state — the new internal state holds the new country with an empty digit
buffer, and the fired callbacks are `onCountryChange(country)` followed by
`onChange("")`; stale digits are never reformatted. -/
theorem handleCountryChange_clears_phone (st : PhoneInputState) (c : Country) :
    (handleCountryChange st c).1.phoneNumber = "" ∧
    (handleCountryChange st c).1.selectedCountry = c ∧
    (handleCountryChange st c).2 = [.countryChange c, .change ""] :=
  ⟨rfl, rfl, rfl⟩

/-- C8: for every 4-cell buffer whose cells each hold at most one character,
the submit action is a no-op (unchanged buffer, storage and page, no request)
exactly when the code is not complete in the sense of `isCodeComplete` (every
cell non-empty); on such buffers the code's guard on the joined string having
length 4 coincides with the completeness predicate. -/
theorem submit_noop_iff_incomplete (otp : List String) (st : Store)
    (page : String) (o : Except Unit String) (hlen : otp.length = 4)
    (hcell : ∀ s ∈ otp, s.length ≤ 1) :
    ((handleSubmit otp st page o).requested = false ↔
      isCodeComplete otp = false) ∧
    (isCodeComplete otp = false →
      handleSubmit otp st page o = ⟨otp, st, page, false⟩) := by
  rcases otp with _ | ⟨a, _ | ⟨b, _ | ⟨c, _ | ⟨d, _ | ⟨e, t⟩⟩⟩⟩⟩ <;>
      simp only [List.length_nil, List.length_cons] at hlen <;>
    try omega
  have ha := hcell a (by simp)
  have hb := hcell b (by simp)
  have hc := hcell c (by simp)
  have hd := hcell d (by simp)
  have hjoin : (String.join [a, b, c, d]).length =
      a.length + b.length + c.length + d.length := by
    simp only [String.join, List.foldl, String.length_append]
    have hnil : ("" : String).length = 0 := rfl
    omega
  have hne : ∀ s : String, s ≠ "" ↔ s.length ≠ 0 := fun s =>
    not_congr (String.length_eq_zero_iff s).symm
  by_cases hj : (String.join [a, b, c, d]).length = 4
  · have hreq : (handleSubmit [a, b, c, d] st page o).requested = true := by
      simp only [handleSubmit, hj, ne_eq, not_true_eq_false, if_false]
      cases o <;> rfl
    have hcomp : isCodeComplete [a, b, c, d] = true := by
      rw [hjoin] at hj
      simp only [isCodeComplete, List.all_cons, List.all_nil, Bool.and_true,
        Bool.and_eq_true, decide_eq_true_eq]
      refine ⟨?_, ?_, ?_, ?_⟩ <;> rw [hne] <;> omega
    rw [hreq, hcomp]
    exact ⟨by simp, fun hcf => absurd hcf (by decide)⟩
  · have hres : handleSubmit [a, b, c, d] st page o =
        ⟨[a, b, c, d], st, page, false⟩ := by
      simp only [handleSubmit]
      rw [if_pos hj]
    have hcomp : isCodeComplete [a, b, c, d] = false := by
      by_contra hcc
      rw [Bool.not_eq_false] at hcc
      simp only [isCodeComplete, List.all_cons, List.all_nil, Bool.and_true,
        Bool.and_eq_true, decide_eq_true_eq] at hcc
      obtain ⟨n1, n2, n3, n4⟩ := hcc
      rw [hne] at n1 n2 n3 n4
      rw [hjoin] at hj
      omega
    rw [hres, hcomp]
    exact ⟨by simp, fun _ => rfl⟩

/-- C8 witness: the equivalence at the incomplete buffer `["1","2","","4"]`,
where the submit action leaves everything unchanged and issues no request. -/
theorem submit_noop_iff_incomplete_witness :
    ([("1" : String), "2", "", "4"].length = 4 ∧
      ∀ s ∈ [("1" : String), "2", "", "4"], s.length ≤ 1) ∧
    (((handleSubmit ["1", "2", "", "4"] ⟨[]⟩ "/otp-confirm"
          (.ok "m")).requested = false ↔
        isCodeComplete ["1", "2", "", "4"] = false) ∧
      (isCodeComplete ["1", "2", "", "4"] = false →
        handleSubmit ["1", "2", "", "4"] ⟨[]⟩ "/otp-confirm" (.ok "m") =
          ⟨["1", "2", "", "4"], ⟨[]⟩, "/otp-confirm", false⟩)) :=
  ⟨⟨by decide, by decide⟩,
    submit_noop_iff_incomplete ["1", "2", "", "4"] ⟨[]⟩ "/otp-confirm"
      (.ok "m") (by decide) (by decide)⟩

/-- C2: for every input string, the formatter's result only depends on the
decimal digits of the input (all non-digits are stripped first); every dial
code outside {+1, +44, +971} is grouped by the same generic template; and the
dial-code templates produce the documented groupings, e.g.
`format("1234567890", "+1") = "(123) 456-7890"` and
`format("1234567", "+971") = "(123) - 4567"`. -/
theorem formatPhoneNumber_strip_and_templates :
    (∀ value dialCode : String,
      formatPhoneNumber value dialCode =
        formatPhoneNumber (String.mk (value.data.filter Char.isDigit))
          dialCode) ∧
    (∀ value dialCode : String, dialCode ≠ "+1" → dialCode ≠ "+44" →
      dialCode ≠ "+971" →
      formatPhoneNumber value dialCode = formatPhoneNumber value "+999") ∧
    formatPhoneNumber "1234567890" "+1" = "(123) 456-7890" ∧
    formatPhoneNumber "1234567" "+971" = "(123) - 4567" ∧
    formatPhoneNumber "12345678901" "+44" = "1234 567 8901" ∧
    formatPhoneNumber "1234567890" "+385" = "123 456 7890" := by
  refine ⟨?_, ?_, by decide, by decide, by decide, by decide⟩
  · intro value dialCode
    unfold formatPhoneNumber
    congr 1
    have hidem : (value.data.filter Char.isDigit).filter Char.isDigit =
        value.data.filter Char.isDigit :=
      List.filter_eq_self.mpr fun c hc => (List.mem_filter.mp hc).2
    rw [show (String.mk (value.data.filter Char.isDigit)).data =
        value.data.filter Char.isDigit from rfl, hidem]
  · intro value dialCode h1 h2 h3
    unfold formatPhoneNumber
    congr 1
    rw [formatDigits_generic _ _ h1 h2 h3,
      formatDigits_generic _ "+999" (by decide) (by decide) (by decide)]

/-- C2 witness: the unrecognized dial code "+386" falls through to the
generic template. -/
theorem formatPhoneNumber_strip_and_templates_witness :
    formatPhoneNumber "5551234567" "+386" =
      formatPhoneNumber "5551234567" "+999" :=
  formatPhoneNumber_strip_and_templates.2.1 "5551234567" "+386" (by decide)
    (by decide) (by decide)

/-- C9: the formatter is idempotent — feeding a formatted display string back
through the formatter under the same dial code leaves it unchanged, for every
input string and dial code. -/
theorem formatPhoneNumber_idempotent (s dialCode : String) :
    formatPhoneNumber (formatPhoneNumber s dialCode) dialCode =
      formatPhoneNumber s dialCode := by
  have hd : ∀ c ∈ s.data.filter Char.isDigit, Char.isDigit c := fun c hc =>
    (List.mem_filter.mp hc).2
  show String.mk (formatDigits ((formatDigits (s.data.filter Char.isDigit)
      dialCode).filter Char.isDigit) dialCode) = _
  rw [formatDigits_idem _ dialCode hd]
  rfl

/-- C10: every API wrapper substitutes its hard-coded fallback message
whenever the response's `msg` field is falsy — in particular a 2xx body with
`msg = ""` yields the fallback — and no wrapper ever returns the empty
string. -/
theorem api_fallback_on_falsy_msg :
    (∀ method : String,
      sendOTPEmailMessage (some "") = "OTP sent successfully to your email" ∧
      sendOTPPhoneMessage (some "") = "OTP sent successfully to your phone" ∧
      verifyOTPMessage (some "") = "Registration completed successfully" ∧
      resendOTPMessage method (some "") =
        "OTP resent successfully to your " ++ method) ∧
    (∀ (msg : Option String) (method : String),
      sendOTPEmailMessage msg ≠ "" ∧
      sendOTPPhoneMessage msg ≠ "" ∧
      verifyOTPMessage msg ≠ "" ∧
      resendOTPMessage method msg ≠ "") := by
  have hjs : ∀ (v : Option String) (fb : String), fb ≠ "" → jsOrString v fb ≠ "" := by
    intro v fb hfb
    match v with
    | none => exact hfb
    | some s =>
      simp only [jsOrString]
      split
      · exact hfb
      · assumption
  refine ⟨fun method => ⟨rfl, rfl, rfl, rfl⟩, fun msg method => ?_⟩
  refine ⟨hjs _ _ (by decide), hjs _ _ (by decide), hjs _ _ (by decide),
    hjs _ _ ?_⟩
  intro hempty
  have hzero : ("OTP resent successfully to your " ++ method).length = 0 := by
    rw [hempty]
    rfl
  have hlit : ("OTP resent successfully to your " : String).length = 32 := by
    decide
  rw [String.length_append, hlit] at hzero
  omega

/-- C10 witness: the fallback at `msg = some ""` and the non-emptiness at a
concrete wrapper. -/
theorem api_fallback_on_falsy_msg_witness :
    sendOTPEmailMessage (some "") = "OTP sent successfully to your email" ∧
    resendOTPMessage "email" (some "") ≠ "" :=
  ⟨(api_fallback_on_falsy_msg.1 "email").1,
    (api_fallback_on_falsy_msg.2 (some "") "email").2.2.2⟩

end Wynn
